import Mathlib

/-!
Verification of the KNXnet/IP gateway simulator (knx_simulator.py).

The development shallowly embeds the protocol engine of the simulator:
the 6-byte frame header codec, the cEMI application-layer inspector,
the session table keyed by channel id, the request handlers and the
receive loop dispatch. Bytes are modelled as lists of natural numbers;
a value produced by the network layer is below 256 and theorems that
need this carry it as a hypothesis. Python struct packing raises
struct.error on an out-of-range field, so the packing helpers return
Option: a none models the exception.
-/

/-- A byte string, as produced by recvfrom: a list of naturals below 256. -/
abbrev Bytes := List Nat

/-- Every element of the byte string is an actual byte value. -/
def ValidBytes (data : Bytes) : Prop := ∀ b ∈ data, b < 256

instance : DecidablePred ValidBytes := fun data =>
  inferInstanceAs (Decidable (∀ b ∈ data, b < 256))

/-- Model of struct packing a single unsigned byte (format B): Python
raises struct.error outside 0..255, modelled as none. -/
def pack_u8 (x : Nat) : Option Bytes :=
  if x < 256 then some [x] else none

/-- Model of struct packing a big-endian unsigned 16-bit field (format H). -/
def pack_u16 (x : Nat) : Option Bytes :=
  if x < 65536 then some [x / 256, x % 256] else none

/-- Read a big-endian 16-bit value out of two bytes. -/
def read_u16 (hi lo : Nat) : Nat := hi * 256 + lo

-- Service type identifiers, lines 23-33 of knx_simulator.py.
def SERVICE_SEARCH_REQUEST : Nat := 0x0201
def SERVICE_SEARCH_RESPONSE : Nat := 0x0202
def SERVICE_CONNECT_REQUEST : Nat := 0x0205
def SERVICE_CONNECT_RESPONSE : Nat := 0x0206
def SERVICE_CONNECTIONSTATE_REQUEST : Nat := 0x0207
def SERVICE_CONNECTIONSTATE_RESPONSE : Nat := 0x0208
def SERVICE_DISCONNECT_REQUEST : Nat := 0x0209
def SERVICE_DISCONNECT_RESPONSE : Nat := 0x020A
def SERVICE_TUNNELING_REQUEST : Nat := 0x0420
def SERVICE_TUNNELING_ACK : Nat := 0x0421
def SERVICE_TUNNELING_INDICATION : Nat := 0x0420

def STATUS_OK : Nat := 0x00

/-- The parsed KNXnet/IP header together with the body it delimits,
mirroring the dict returned by KNXSimulator.parse_header. -/
structure Frame where
  header_len : Nat
  version : Nat
  service_type : Nat
  total_len : Nat
  body : Bytes
deriving DecidableEq, Repr

/-- KNXSimulator.parse_header (lines 58-76): returns none when fewer
than 6 bytes are available, otherwise unpacks header_len, version,
service_type and total_len and slices the body as
data[6 : 6 + (total_len - 6)] when total_len is at least 6 and
data[6:] otherwise. No other check is performed. -/
def parse_header (data : Bytes) : Option Frame :=
  if data.length < 6 then none
  else
    let header_len := data.getD 0 0
    let version := data.getD 1 0
    let service_type := read_u16 (data.getD 2 0) (data.getD 3 0)
    let total_len := read_u16 (data.getD 4 0) (data.getD 5 0)
    let body := if 6 ≤ total_len then (data.drop 6).take (total_len - 6)
                else data.drop 6
    some ⟨header_len, version, service_type, total_len, body⟩

/-- KNXSimulator.build_header (lines 78-81): struct.pack of
(0x06, 0x10, service_type, 6 + body_len) in big-endian; none models
the struct.error raised when a 16-bit field overflows. -/
def build_header (service_type body_len : Nat) : Option Bytes :=
  match pack_u16 service_type, pack_u16 (6 + body_len) with
  | some st, some tl => some ([0x06, 0x10] ++ st ++ tl)
  | _, _ => none

/-- Frame encoding as used throughout the simulator: header followed by
the body bytes. -/
def buildFrame (service_type : Nat) (body : Bytes) : Option Bytes :=
  (build_header service_type body.length).map (· ++ body)

theorem build_header_eq (st blen : Nat) (hst : st < 65536)
    (hb : 6 + blen < 65536) :
    build_header st blen =
      some [0x06, 0x10, st / 256, st % 256, (6 + blen) / 256, (6 + blen) % 256] := by
  simp [build_header, pack_u16, hst, hb]

theorem buildFrame_eq (st : Nat) (body : Bytes) (hst : st < 65536)
    (hb : 6 + body.length < 65536) :
    buildFrame st body =
      some ([0x06, 0x10, st / 256, st % 256,
             (6 + body.length) / 256, (6 + body.length) % 256] ++ body) := by
  simp [buildFrame, build_header_eq st body.length hst hb]

theorem parse_header_of_built (st : Nat) (body : Bytes) :
    parse_header ([0x06, 0x10, st / 256, st % 256,
             (6 + body.length) / 256, (6 + body.length) % 256] ++ body) =
      some ⟨0x06, 0x10, st, 6 + body.length, body⟩ := by
  have hst' : st / 256 * 256 + st % 256 = st := by
    have := Nat.div_add_mod st 256; omega
  have htl' : (6 + body.length) / 256 * 256 + (6 + body.length) % 256
      = 6 + body.length := by
    have := Nat.div_add_mod (6 + body.length) 256; omega
  simp [parse_header, read_u16, List.getD, hst', htl']

/-- A UDP peer address: four IPv4 address bytes and a port. -/
structure Addr where
  ip : Bytes
  port : Nat
deriving DecidableEq, Repr

/-- The session table entry: peer address and outbound sequence counter. -/
abbrev Session := Addr × Nat

/-- The session dict channel_id to (client_addr, sequence), as an
association list with unique keys, mirroring self.channels. -/
abbrev Channels := List (Nat × Session)

def dictLookup : Channels → Nat → Option Session
  | [], _ => none
  | (k, v) :: rest, key => if k = key then some v else dictLookup rest key

def dictInsert : Channels → Nat → Session → Channels
  | [], key, v => [(key, v)]
  | (k, w) :: rest, key, v =>
      if k = key then (key, v) :: rest else (k, w) :: dictInsert rest key v

def dictErase : Channels → Nat → Channels
  | [], _ => []
  | (k, w) :: rest, key =>
      if k = key then rest else (k, w) :: dictErase rest key

/-- The mutable simulator state: the session table self.channels and the
channel allocator self.next_channel (KNXSimulator.__init__, lines 50-51). -/
structure KNXState where
  channels : Channels
  next_channel : Nat
deriving DecidableEq, Repr

/-- Initial state of the simulator: empty table, next channel id 1. -/
def initState : KNXState := ⟨[], 1⟩

/-- Result of inspecting a cEMI payload: either the combined APCI value
or insufficient data to reach the APCI bytes. -/
inductive CemiClass where
  | insufficientData
  | apci (v : Nat)
deriving DecidableEq, Repr

/-- The cEMI inspection of KNXSimulator.is_group_write (lines 176-241),
up to but excluding the final comparison with 0x80: the length checks
(fewer than 10 bytes; buffer not reaching one byte past the TPCI/APCI
offset 2 + add_info_len + 7) yield insufficientData, otherwise the
combined APCI is the bitwise or of the low two bits of the TPCI/APCI
byte shifted left 6 with the high two bits of the following byte. -/
def classify (cemi_data : Bytes) : CemiClass :=
  if cemi_data.length < 10 then CemiClass.insufficientData
  else
    let add_info_len := cemi_data.getD 1 0
    let tpci_apci_pos := 2 + add_info_len + 1 + 1 + 2 + 2 + 1
    if cemi_data.length ≤ tpci_apci_pos then CemiClass.insufficientData
    else
      let tpci_apci_byte := cemi_data.getD tpci_apci_pos 0
      let apci_upper := (tpci_apci_byte % 4) * 64
      if cemi_data.length ≤ tpci_apci_pos + 1 then CemiClass.insufficientData
      else
        let apci_data_byte := cemi_data.getD (tpci_apci_pos + 1) 0
        let apci_lower := apci_data_byte / 64 % 4 * 64
        CemiClass.apci (Nat.lor apci_upper apci_lower)

/-- KNXSimulator.is_group_write, line 238: the combined APCI equals 0x80. -/
def is_group_write (cemi_data : Bytes) : Bool :=
  classify cemi_data = CemiClass.apci 0x80

/-- KNXSimulator.handle_connect_request (lines 125-140): allocate
next_channel, store (client_addr, 0), bump the allocator, and reply
CONNECT_RESPONSE with body channel_id, status 0, a zero HPAI and the
CRD 04 04 02 00. The pack of the channel id as a single byte fails
(struct.error, modelled none) once the allocator passes 255. -/
def handle_connect_request (s : KNXState) (client_addr : Addr) :
    KNXState × Option Bytes :=
  let channel_id := s.next_channel
  let s' : KNXState := ⟨dictInsert s.channels channel_id (client_addr, 0),
                        s.next_channel + 1⟩
  match pack_u8 channel_id with
  | none => (s', none)
  | some cid =>
    let body := cid ++ [STATUS_OK]
                ++ [0x08, 0x01, 0x00, 0x00, 0x00, 0x00, 0x00, 0x00]
                ++ [0x04, 0x04, 0x02, 0x00]
    (s', buildFrame SERVICE_CONNECT_RESPONSE body)

/-- KNXSimulator.handle_disconnect_request (lines 142-151): requires at
least 2 body bytes, removes the channel if present, replies
DISCONNECT_RESPONSE with the same channel id and status 0. -/
def handle_disconnect_request (s : KNXState) (data : Bytes) :
    KNXState × Option Bytes :=
  if data.length < 2 then (s, none)
  else
    let channel_id := data.getD 0 0
    let s' : KNXState := ⟨dictErase s.channels channel_id, s.next_channel⟩
    match pack_u8 channel_id with
    | none => (s', none)
    | some cid => (s', buildFrame SERVICE_DISCONNECT_RESPONSE (cid ++ [STATUS_OK]))

/-- KNXSimulator.handle_connectionstate_request (lines 246-253): requires
at least 2 body bytes and replies status 0 with the same channel id; the
session table is never consulted. -/
def handle_connectionstate_request (data : Bytes) : Option Bytes :=
  if data.length < 2 then none
  else
    let channel_id := data.getD 0 0
    match pack_u8 channel_id with
    | none => none
    | some cid =>
        buildFrame SERVICE_CONNECTIONSTATE_RESPONSE (cid ++ [STATUS_OK])

/-- KNXSimulator.send_tunneling_indication (lines 269-279): a no-op when
the channel id is absent from the table; otherwise sends one frame with
connection header (4, channel_id, stored sequence, 0) followed by the
cEMI bytes to the stored peer, then stores (sequence + 1) mod 256.
The returned list is the datagrams passed to sendto, in order. -/
def send_tunneling_indication (s : KNXState) (channel_id : Nat)
    (cemi_data : Bytes) : KNXState × List (Bytes × Addr) :=
  match dictLookup s.channels channel_id with
  | none => (s, [])
  | some (client_addr, sequence) =>
    match pack_u8 channel_id, pack_u8 sequence with
    | some cid, some seq =>
      let conn_header := [0x04] ++ cid ++ seq ++ [0x00]
      match buildFrame SERVICE_TUNNELING_INDICATION (conn_header ++ cemi_data) with
      | none => (s, [])
      | some frame =>
        (⟨dictInsert s.channels channel_id (client_addr, (sequence + 1) % 256),
          s.next_channel⟩, [(frame, client_addr)])
    | _, _ => (s, [])

/-- KNXSimulator.handle_tunneling_request (lines 153-174): requires at
least 4 body bytes; builds the TUNNELING_ACK from the unchanged 4-byte
connection header plus status 0; when the cEMI payload is nonempty and
classifies as GroupValue_Write, sends the indication (a direct sendto,
so it goes on the wire before the returned ACK) . The triple is
(new state, reply, datagrams already sent by the handler). -/
def handle_tunneling_request (s : KNXState) (data : Bytes) :
    KNXState × Option Bytes × List (Bytes × Addr) :=
  if data.length < 4 then (s, none, [])
  else
    let conn_header := data.take 4
    let channel_id := data.getD 1 0
    let cemi_data := data.drop 4
    let response := buildFrame SERVICE_TUNNELING_ACK (conn_header ++ [STATUS_OK])
    if 0 < cemi_data.length ∧ is_group_write cemi_data then
      let (s', sends) := send_tunneling_indication s channel_id cemi_data
      (s', response, sends)
    else
      (s, response, [])

/-- The reply target of KNXSimulator.handle_search_request (lines 89-103):
when the body holds at least 8 bytes whose first two are 8 and 1, the
embedded HPAI address and port; otherwise the UDP source address. -/
def search_target (data : Bytes) (client_addr : Addr) : Addr :=
  if 8 ≤ data.length ∧ data.getD 0 0 = 8 ∧ data.getD 1 0 = 1 then
    ⟨(data.drop 2).take 4, read_u16 (data.getD 6 0) (data.getD 7 0)⟩
  else client_addr

/-- KNXSimulator.handle_search_request (lines 83-123): builds the
SEARCH_RESPONSE body as the HPAI 8, 1, server ip, server port and sends
it to the reply target. The advertised server ip is the result of the
throwaway-socket probe, an OS interaction passed in as a parameter. -/
def handle_search_request (server_ip : Bytes) (port : Nat)
    (data : Bytes) (client_addr : Addr) : List (Bytes × Addr) :=
  let target := search_target data client_addr
  match pack_u16 port with
  | none => []
  | some p =>
    let body := [0x08, 0x01] ++ (server_ip.take 4
                  ++ List.replicate (4 - server_ip.length) 0) ++ p
    match buildFrame SERVICE_SEARCH_RESPONSE body with
    | none => []
    | some frame => [(frame, target)]

/-- The send performed at the end of the receive loop (line 325-326):
a truthy (nonempty) response is sent back to the UDP source. -/
def respSends (resp : Option Bytes) (client_addr : Addr) : List (Bytes × Addr) :=
  match resp with
  | none => []
  | some r => if r.length = 0 then [] else [(r, client_addr)]

/-- One iteration of KNXSimulator.run (lines 289-326): parse the
datagram, dispatch on the service type in the order of the elif chain,
and collect every datagram passed to sendto, in send order. Handlers
that send directly (tunneling indication, search response) contribute
their sends before the reply sent by the loop itself. The server_ip
parameter is the OS-probed address the search responder advertises. -/
def run_step (server_ip : Bytes) (port : Nat) (s : KNXState)
    (data : Bytes) (client_addr : Addr) : KNXState × List (Bytes × Addr) :=
  match parse_header data with
  | none => (s, [])
  | some frame =>
    let body := frame.body
    if frame.service_type = SERVICE_CONNECT_REQUEST then
      let (s', resp) := handle_connect_request s client_addr
      (s', respSends resp client_addr)
    else if frame.service_type = SERVICE_DISCONNECT_REQUEST then
      let (s', resp) := handle_disconnect_request s body
      (s', respSends resp client_addr)
    else if frame.service_type = SERVICE_TUNNELING_REQUEST then
      let r := handle_tunneling_request s body
      (r.1, r.2.2 ++ respSends r.2.1 client_addr)
    else if frame.service_type = SERVICE_CONNECTIONSTATE_REQUEST then
      (s, respSends (handle_connectionstate_request body) client_addr)
    else if frame.service_type = SERVICE_SEARCH_REQUEST then
      (s, handle_search_request server_ip port body client_addr)
    else
      (s, [])

/-- One received datagram together with its UDP source address. -/
structure Event where
  data : Bytes
  client : Addr

/-- The state after the receive loop has processed a list of datagrams. -/
def processTrace (server_ip : Bytes) (port : Nat) :
    KNXState → List Event → KNXState
  | s, [] => s
  | s, e :: rest =>
      processTrace server_ip port
        (run_step server_ip port s e.data e.client).1 rest

/-- The channel ids carried in CONNECT_RESPONSE frames of a send list:
the first body byte of every sent frame whose service type is
CONNECT_RESPONSE. -/
def connectIdsOf (sends : List (Bytes × Addr)) : List Nat :=
  sends.filterMap fun fd =>
    match parse_header fd.1 with
    | some f => if f.service_type = SERVICE_CONNECT_RESPONSE
                then some (f.body.getD 0 0) else none
    | none => none

/-- All channel ids issued in CONNECT_RESPONSE frames while processing a
trace of datagrams. -/
def issuedIds (server_ip : Bytes) (port : Nat) :
    KNXState → List Event → List Nat
  | _, [] => []
  | s, e :: rest =>
      connectIdsOf (run_step server_ip port s e.data e.client).2
        ++ issuedIds server_ip port
             (run_step server_ip port s e.data e.client).1 rest

theorem dictLookup_dictInsert (m : Channels) (k : Nat) (v : Session) :
    dictLookup (dictInsert m k v) k = some v := by
  induction m with
  | nil => simp [dictInsert, dictLookup]
  | cons hd tl ih =>
      obtain ⟨k', w⟩ := hd
      by_cases h : k' = k
      · simp [dictInsert, dictLookup, h]
      · simp [dictInsert, dictLookup, h, ih]

theorem dictErase_dictInsert (m : Channels) (k : Nat) (v : Session)
    (h : dictLookup m k = none) : dictErase (dictInsert m k v) k = m := by
  induction m with
  | nil => simp [dictInsert, dictErase]
  | cons hd tl ih =>
      obtain ⟨k', w⟩ := hd
      by_cases hk : k' = k
      · simp [dictLookup, hk] at h
      · simp [dictLookup, hk] at h
        simp [dictInsert, dictErase, hk, ih h]

theorem buildFrame_some_inv {st : Nat} {body w : Bytes}
    (h : buildFrame st body = some w) :
    parse_header w = some ⟨0x06, 0x10, st, 6 + body.length, body⟩ := by
  by_cases h1 : st < 65536 <;> by_cases h2 : 6 + body.length < 65536 <;>
    simp [buildFrame, build_header, pack_u16, h1, h2] at h
  rw [← h]
  exact parse_header_of_built st body

theorem handle_connect_request_eq (s : KNXState) (c : Addr)
    (h : s.next_channel < 256) :
    handle_connect_request s c =
      (⟨dictInsert s.channels s.next_channel (c, 0), s.next_channel + 1⟩,
       some ([0x06, 0x10, 0x02, 0x06, 0x00, 0x14] ++
             [s.next_channel, STATUS_OK, 0x08, 0x01, 0, 0, 0, 0, 0, 0,
              0x04, 0x04, 0x02, 0x00])) := by
  norm_num [handle_connect_request, pack_u8, h, STATUS_OK, buildFrame,
        build_header, pack_u16, SERVICE_CONNECT_RESPONSE]

theorem handle_disconnect_request_eq (s : KNXState) (data : Bytes)
    (h2 : 2 ≤ data.length) (hch : data.getD 0 0 < 256) :
    handle_disconnect_request s data =
      (⟨dictErase s.channels (data.getD 0 0), s.next_channel⟩,
       some [0x06, 0x10, 0x02, 0x0A, 0x00, 0x08, data.getD 0 0, STATUS_OK]) := by
  have h2' : ¬ data.length < 2 := by omega
  simp only [List.getD_eq_getElem?_getD] at hch
  norm_num [handle_disconnect_request, h2', pack_u8, hch, STATUS_OK, buildFrame,
        build_header, pack_u16, SERVICE_DISCONNECT_RESPONSE, List.getD]

theorem handle_connectionstate_request_eq (data : Bytes)
    (h2 : 2 ≤ data.length) (hch : data.getD 0 0 < 256) :
    handle_connectionstate_request data =
      some [0x06, 0x10, 0x02, 0x08, 0x00, 0x08, data.getD 0 0, STATUS_OK] := by
  have h2' : ¬ data.length < 2 := by omega
  simp only [List.getD_eq_getElem?_getD] at hch
  norm_num [handle_connectionstate_request, h2', pack_u8, hch, STATUS_OK,
        buildFrame, build_header, pack_u16, SERVICE_CONNECTIONSTATE_RESPONSE,
        List.getD]

theorem send_tunneling_indication_absent (s : KNXState) (ch : Nat)
    (cemi : Bytes) (h : dictLookup s.channels ch = none) :
    send_tunneling_indication s ch cemi = (s, []) := by
  simp [send_tunneling_indication, h]

theorem send_tunneling_indication_eq (s : KNXState) (ch : Nat) (cemi : Bytes)
    (peer : Addr) (seq : Nat) (hlk : dictLookup s.channels ch = some (peer, seq))
    (hch : ch < 256) (hseq : seq < 256) (hlen : 10 + cemi.length < 65536) :
    send_tunneling_indication s ch cemi =
      (⟨dictInsert s.channels ch (peer, (seq + 1) % 256), s.next_channel⟩,
       [([0x06, 0x10, 0x04, 0x20,
          (10 + cemi.length) / 256, (10 + cemi.length) % 256]
          ++ ([0x04, ch, seq, 0x00] ++ cemi), peer)]) := by
  have hlen' : 6 + (List.length cemi + 4) < 65536 := by omega
  have harith : 6 + (List.length cemi + 4) = 10 + cemi.length := by omega
  norm_num [send_tunneling_indication, hlk, pack_u8, hch, hseq, buildFrame,
        build_header, pack_u16, SERVICE_TUNNELING_INDICATION, hlen', harith,
        hlen]

theorem length_of_is_group_write {l : Bytes} (h : is_group_write l = true) :
    10 ≤ l.length := by
  by_contra hlt
  push_neg at hlt
  simp [is_group_write, classify, hlt] at h

theorem handle_tunneling_request_eq (s : KNXState) (data : Bytes)
    (h4 : 4 ≤ data.length) :
    handle_tunneling_request s data =
      (if 0 < (data.drop 4).length ∧ is_group_write (data.drop 4) then
         ((send_tunneling_indication s (data.getD 1 0) (data.drop 4)).1,
          some ([0x06, 0x10, 0x04, 0x21, 0x00, 0x0B]
                 ++ (data.take 4 ++ [STATUS_OK])),
          (send_tunneling_indication s (data.getD 1 0) (data.drop 4)).2)
       else
         (s, some ([0x06, 0x10, 0x04, 0x21, 0x00, 0x0B]
                 ++ (data.take 4 ++ [STATUS_OK])), [])) := by
  have h4' : ¬ data.length < 4 := by omega
  have hlen : (data.take 4 ++ [STATUS_OK]).length = 5 := by
    simp [List.length_take, STATUS_OK]
    omega
  have hbf : buildFrame SERVICE_TUNNELING_ACK (data.take 4 ++ [STATUS_OK]) =
      some ([0x06, 0x10, 0x04, 0x21, 0x00, 0x0B] ++ (data.take 4 ++ [STATUS_OK])) := by
    rw [buildFrame_eq _ _ (by norm_num [SERVICE_TUNNELING_ACK]) (by omega)]
    norm_num [SERVICE_TUNNELING_ACK, hlen]
  simp only [handle_tunneling_request, h4', if_false, hbf]

theorem handle_search_request_eq (sip : Bytes) (port : Nat) (data : Bytes)
    (c : Addr) (hport : port < 65536) :
    handle_search_request sip port data c =
      [([0x06, 0x10, 0x02, 0x02, 0x00, 0x0E, 0x08, 0x01]
          ++ (sip.take 4 ++ List.replicate (4 - sip.length) 0)
          ++ [port / 256, port % 256], search_target data c)] := by
  have hip : (sip.take 4 ++ List.replicate (4 - sip.length) 0).length = 4 := by
    simp [List.length_take]
    omega
  have harith : 4 ⊓ List.length sip + (4 - List.length sip + 2) + 1 + 1 = 8 := by
    omega
  norm_num [handle_search_request, pack_u16, hport, buildFrame, build_header,
        SERVICE_SEARCH_RESPONSE, hip, harith]

theorem run_step_connect (sip : Bytes) (port : Nat) (s : KNXState)
    (data : Bytes) (c : Addr) (fr : Frame) (hp : parse_header data = some fr)
    (hsvc : fr.service_type = SERVICE_CONNECT_REQUEST) :
    run_step sip port s data c =
      ((handle_connect_request s c).1,
       respSends (handle_connect_request s c).2 c) := by
  rcases hx : handle_connect_request s c with ⟨s', resp⟩
  simp [run_step, hp, hsvc, hx]

theorem run_step_disconnect (sip : Bytes) (port : Nat) (s : KNXState)
    (data : Bytes) (c : Addr) (fr : Frame) (hp : parse_header data = some fr)
    (hsvc : fr.service_type = SERVICE_DISCONNECT_REQUEST) :
    run_step sip port s data c =
      ((handle_disconnect_request s fr.body).1,
       respSends (handle_disconnect_request s fr.body).2 c) := by
  rcases hx : handle_disconnect_request s fr.body with ⟨s', resp⟩
  norm_num [run_step, hp, hsvc, hx, SERVICE_DISCONNECT_REQUEST,
        SERVICE_CONNECT_REQUEST]

theorem run_step_tunneling (sip : Bytes) (port : Nat) (s : KNXState)
    (data : Bytes) (c : Addr) (fr : Frame) (hp : parse_header data = some fr)
    (hsvc : fr.service_type = SERVICE_TUNNELING_REQUEST) :
    run_step sip port s data c =
      ((handle_tunneling_request s fr.body).1,
       (handle_tunneling_request s fr.body).2.2
         ++ respSends (handle_tunneling_request s fr.body).2.1 c) := by
  norm_num [run_step, hp, hsvc, SERVICE_TUNNELING_REQUEST,
        SERVICE_CONNECT_REQUEST, SERVICE_DISCONNECT_REQUEST]

theorem run_step_connectionstate (sip : Bytes) (port : Nat) (s : KNXState)
    (data : Bytes) (c : Addr) (fr : Frame) (hp : parse_header data = some fr)
    (hsvc : fr.service_type = SERVICE_CONNECTIONSTATE_REQUEST) :
    run_step sip port s data c =
      (s, respSends (handle_connectionstate_request fr.body) c) := by
  norm_num [run_step, hp, hsvc, SERVICE_CONNECTIONSTATE_REQUEST,
        SERVICE_CONNECT_REQUEST, SERVICE_DISCONNECT_REQUEST,
        SERVICE_TUNNELING_REQUEST]

theorem run_step_search (sip : Bytes) (port : Nat) (s : KNXState)
    (data : Bytes) (c : Addr) (fr : Frame) (hp : parse_header data = some fr)
    (hsvc : fr.service_type = SERVICE_SEARCH_REQUEST) :
    run_step sip port s data c =
      (s, handle_search_request sip port fr.body c) := by
  norm_num [run_step, hp, hsvc, SERVICE_SEARCH_REQUEST,
        SERVICE_CONNECT_REQUEST, SERVICE_DISCONNECT_REQUEST,
        SERVICE_TUNNELING_REQUEST, SERVICE_CONNECTIONSTATE_REQUEST]

theorem run_step_other (sip : Bytes) (port : Nat) (s : KNXState)
    (data : Bytes) (c : Addr) (fr : Frame) (hp : parse_header data = some fr)
    (h1 : fr.service_type ≠ SERVICE_CONNECT_REQUEST)
    (h2 : fr.service_type ≠ SERVICE_DISCONNECT_REQUEST)
    (h3 : fr.service_type ≠ SERVICE_TUNNELING_REQUEST)
    (h4 : fr.service_type ≠ SERVICE_CONNECTIONSTATE_REQUEST)
    (h5 : fr.service_type ≠ SERVICE_SEARCH_REQUEST) :
    run_step sip port s data c = (s, []) := by
  simp [run_step, hp, h1, h2, h3, h4, h5]

theorem parse_header_none_iff (data : Bytes) :
    parse_header data = none ↔ data.length < 6 := by
  by_cases h : data.length < 6 <;> simp [parse_header, h]

theorem buildFrame_some_pos {st : Nat} {body w : Bytes}
    (hw : buildFrame st body = some w) : w.length ≠ 0 := by
  have hp := buildFrame_some_inv hw
  intro h0
  have : w.length < 6 := by omega
  rw [← parse_header_none_iff] at this
  rw [this] at hp
  cases hp

theorem respSends_some (w : Bytes) (c : Addr) (h : w.length ≠ 0) :
    respSends (some w) c = [(w, c)] := by
  simp [respSends, h]

theorem connectIdsOf_append (a b : List (Bytes × Addr)) :
    connectIdsOf (a ++ b) = connectIdsOf a ++ connectIdsOf b := by
  simp [connectIdsOf, List.filterMap_append]

theorem connectIdsOf_single (st : Nat) (body w : Bytes) (a : Addr)
    (hw : buildFrame st body = some w) :
    connectIdsOf [(w, a)] =
      if st = SERVICE_CONNECT_RESPONSE then [body.getD 0 0] else [] := by
  have hp := buildFrame_some_inv hw
  by_cases h : st = SERVICE_CONNECT_RESPONSE <;> simp [connectIdsOf, hp, h]

theorem connectIdsOf_respSends_of_ne (resp : Option Bytes) (c : Addr) (st : Nat)
    (hne : st ≠ SERVICE_CONNECT_RESPONSE)
    (hresp : resp = none ∨ ∃ body w, buildFrame st body = some w ∧ resp = some w) :
    connectIdsOf (respSends resp c) = [] := by
  rcases hresp with h | ⟨body, w, hw, h⟩
  · subst h; rfl
  · subst h
    rw [respSends_some _ _ (buildFrame_some_pos hw), connectIdsOf_single st body w c hw]
    simp [hne]

theorem handle_connect_request_state (s : KNXState) (c : Addr) :
    (handle_connect_request s c).1 =
      ⟨dictInsert s.channels s.next_channel (c, 0), s.next_channel + 1⟩ := by
  rcases h : pack_u8 s.next_channel with _ | cid <;>
    simp [handle_connect_request, h]

theorem handle_connect_request_resp (s : KNXState) (c : Addr)
    (h : s.next_channel < 256) :
    (handle_connect_request s c).2 =
      buildFrame SERVICE_CONNECT_RESPONSE
        ([s.next_channel] ++ [STATUS_OK]
          ++ [0x08, 0x01, 0x00, 0x00, 0x00, 0x00, 0x00, 0x00]
          ++ [0x04, 0x04, 0x02, 0x00]) := by
  simp [handle_connect_request, pack_u8, h]

theorem handle_connect_request_resp_none (s : KNXState) (c : Addr)
    (h : ¬ s.next_channel < 256) :
    (handle_connect_request s c).2 = none := by
  simp [handle_connect_request, pack_u8, h]

theorem handle_disconnect_request_next (s : KNXState) (data : Bytes) :
    (handle_disconnect_request s data).1.next_channel = s.next_channel := by
  by_cases hl : data.length < 2
  · simp [handle_disconnect_request, hl]
  · rcases h : pack_u8 (data.getD 0 0) with _ | cid <;>
      simp only [List.getD_eq_getElem?_getD] at h <;>
      simp [handle_disconnect_request, hl, h]

theorem pack_u8_some {x : Nat} {b : Bytes} (h : pack_u8 x = some b) :
    b = [x] ∧ x < 256 := by
  unfold pack_u8 at h
  split at h
  · cases h; exact ⟨rfl, by assumption⟩
  · cases h

theorem handle_disconnect_request_shape (s : KNXState) (data : Bytes) :
    (handle_disconnect_request s data).2 = none ∨
      ∃ body w, buildFrame SERVICE_DISCONNECT_RESPONSE body = some w ∧
        (handle_disconnect_request s data).2 = some w := by
  by_cases hl : data.length < 2
  · left; simp [handle_disconnect_request, hl]
  · rcases h : pack_u8 (data.getD 0 0) with _ | cid <;>
      simp only [List.getD_eq_getElem?_getD] at h
    · left; simp [handle_disconnect_request, hl, h]
    · right
      obtain ⟨hcid, hx⟩ := pack_u8_some h
      obtain ⟨w, hw⟩ : ∃ w,
          buildFrame SERVICE_DISCONNECT_RESPONSE
            [data[0]?.getD 0, STATUS_OK] = some w := by
        rw [buildFrame_eq _ _ (by norm_num [SERVICE_DISCONNECT_RESPONSE])
              (by norm_num)]
        exact ⟨_, rfl⟩
      exact ⟨_, w, hw, by simp [handle_disconnect_request, hl, h, hcid, hw]⟩

theorem handle_connectionstate_request_shape (data : Bytes) :
    handle_connectionstate_request data = none ∨
      ∃ body w, buildFrame SERVICE_CONNECTIONSTATE_RESPONSE body = some w ∧
        handle_connectionstate_request data = some w := by
  by_cases hl : data.length < 2
  · left; simp [handle_connectionstate_request, hl]
  · rcases h : pack_u8 (data.getD 0 0) with _ | cid <;>
      simp only [List.getD_eq_getElem?_getD] at h
    · left; simp [handle_connectionstate_request, hl, h]
    · right
      obtain ⟨hcid, hx⟩ := pack_u8_some h
      obtain ⟨w, hw⟩ : ∃ w,
          buildFrame SERVICE_CONNECTIONSTATE_RESPONSE
            [data[0]?.getD 0, STATUS_OK] = some w := by
        rw [buildFrame_eq _ _ (by norm_num [SERVICE_CONNECTIONSTATE_RESPONSE])
              (by norm_num)]
        exact ⟨_, rfl⟩
      exact ⟨_, w, hw,
        by simp [handle_connectionstate_request, hl, h, hcid, hw]⟩

theorem send_tunneling_indication_next (s : KNXState) (ch : Nat)
    (cemi : Bytes) :
    (send_tunneling_indication s ch cemi).1.next_channel = s.next_channel := by
  rcases hlk : dictLookup s.channels ch with _ | ⟨peer, seq⟩
  · simp [send_tunneling_indication, hlk]
  · rcases h1 : pack_u8 ch with _ | cid
    · simp [send_tunneling_indication, hlk, h1]
    · rcases h2 : pack_u8 seq with _ | sq
      · simp [send_tunneling_indication, hlk, h1, h2]
      · simp only [send_tunneling_indication, hlk, h1, h2]
        rcases hbf : buildFrame SERVICE_TUNNELING_INDICATION
            (([0x04] ++ cid ++ sq ++ [0x00]) ++ cemi) with _ | frame <;> rfl

theorem send_tunneling_indication_shape (s : KNXState) (ch : Nat)
    (cemi : Bytes) :
    (send_tunneling_indication s ch cemi).2 = [] ∨
      ∃ body w peer, buildFrame SERVICE_TUNNELING_INDICATION body = some w ∧
        (send_tunneling_indication s ch cemi).2 = [(w, peer)] := by
  rcases hlk : dictLookup s.channels ch with _ | ⟨peer, seq⟩
  · left; simp [send_tunneling_indication, hlk]
  · rcases h1 : pack_u8 ch with _ | cid
    · left; simp [send_tunneling_indication, hlk, h1]
    · rcases h2 : pack_u8 seq with _ | sq
      · left; simp [send_tunneling_indication, hlk, h1, h2]
      · simp only [send_tunneling_indication, hlk, h1, h2]
        rcases hbf : buildFrame SERVICE_TUNNELING_INDICATION
            (([0x04] ++ cid ++ sq ++ [0x00]) ++ cemi) with _ | frame
        · left; rfl
        · right; exact ⟨_, frame, peer, hbf, rfl⟩

theorem handle_tunneling_request_next (s : KNXState) (data : Bytes) :
    (handle_tunneling_request s data).1.next_channel = s.next_channel := by
  by_cases h4 : data.length < 4
  · simp [handle_tunneling_request, h4]
  · simp only [handle_tunneling_request, h4, if_false]
    split
    · exact send_tunneling_indication_next s _ _
    · rfl

theorem handle_tunneling_request_shape (s : KNXState) (data : Bytes) :
    (handle_tunneling_request s data).2.1 = none ∨
      ∃ body w, buildFrame SERVICE_TUNNELING_ACK body = some w ∧
        (handle_tunneling_request s data).2.1 = some w := by
  by_cases h4 : data.length < 4
  · left; simp [handle_tunneling_request, h4]
  · simp only [handle_tunneling_request, h4, if_false]
    rcases hbf : buildFrame SERVICE_TUNNELING_ACK (data.take 4 ++ [STATUS_OK])
        with _ | w
    · left; split <;> rfl
    · right
      refine ⟨_, w, hbf, ?_⟩
      split <;> rfl

theorem handle_tunneling_request_sends_shape (s : KNXState) (data : Bytes) :
    (handle_tunneling_request s data).2.2 = [] ∨
      ∃ body w peer, buildFrame SERVICE_TUNNELING_INDICATION body = some w ∧
        (handle_tunneling_request s data).2.2 = [(w, peer)] := by
  by_cases h4 : data.length < 4
  · left; simp [handle_tunneling_request, h4]
  · simp only [handle_tunneling_request, h4, if_false]
    split
    · have hsh := send_tunneling_indication_shape s (data.getD 1 0) (data.drop 4)
      rcases hsh with h | ⟨body, w, peer, hbf, h⟩
      · left; simpa using h
      · right; exact ⟨body, w, peer, hbf, by simpa using h⟩
    · left; rfl

theorem handle_search_request_shape (sip : Bytes) (port : Nat) (data : Bytes)
    (c : Addr) :
    handle_search_request sip port data c = [] ∨
      ∃ body w t, buildFrame SERVICE_SEARCH_RESPONSE body = some w ∧
        handle_search_request sip port data c = [(w, t)] := by
  rcases hp : pack_u16 port with _ | p
  · left; simp [handle_search_request, hp]
  · simp only [handle_search_request, hp]
    rcases hbf : buildFrame SERVICE_SEARCH_RESPONSE
        (([0x08, 0x01] ++ (sip.take 4 ++ List.replicate (4 - sip.length) 0)) ++ p)
        with _ | w
    · left; rfl
    · right; exact ⟨_, w, search_target data c, hbf, rfl⟩

theorem run_step_next_mono (sip : Bytes) (port : Nat) (s : KNXState)
    (data : Bytes) (c : Addr) :
    s.next_channel ≤ (run_step sip port s data c).1.next_channel := by
  rcases hp : parse_header data with _ | fr
  · simp [run_step, hp]
  · by_cases h1 : fr.service_type = SERVICE_CONNECT_REQUEST
    · rw [run_step_connect sip port s data c fr hp h1,
          handle_connect_request_state]
      exact Nat.le_succ _
    · by_cases h2 : fr.service_type = SERVICE_DISCONNECT_REQUEST
      · rw [run_step_disconnect sip port s data c fr hp h2]
        exact le_of_eq (handle_disconnect_request_next s fr.body).symm
      · by_cases h3 : fr.service_type = SERVICE_TUNNELING_REQUEST
        · rw [run_step_tunneling sip port s data c fr hp h3]
          exact le_of_eq (handle_tunneling_request_next s fr.body).symm
        · by_cases h4 : fr.service_type = SERVICE_CONNECTIONSTATE_REQUEST
          · rw [run_step_connectionstate sip port s data c fr hp h4]
          · by_cases h5 : fr.service_type = SERVICE_SEARCH_REQUEST
            · rw [run_step_search sip port s data c fr hp h5]
            · rw [run_step_other sip port s data c fr hp h1 h2 h3 h4 h5]

theorem processTrace_next_mono (sip : Bytes) (port : Nat) (s : KNXState)
    (t : List Event) :
    s.next_channel ≤ (processTrace sip port s t).next_channel := by
  induction t generalizing s with
  | nil => simp [processTrace]
  | cons e rest ih =>
      calc s.next_channel
          ≤ (run_step sip port s e.data e.client).1.next_channel :=
            run_step_next_mono sip port s e.data e.client
        _ ≤ (processTrace sip port
              (run_step sip port s e.data e.client).1 rest).next_channel :=
            ih _

theorem connectIdsOf_run_step (sip : Bytes) (port : Nat) (s : KNXState)
    (data : Bytes) (c : Addr) :
    ∀ x ∈ connectIdsOf (run_step sip port s data c).2,
      x < (run_step sip port s data c).1.next_channel := by
  rcases hp : parse_header data with _ | fr
  · simp [run_step, hp, connectIdsOf]
  · by_cases h1 : fr.service_type = SERVICE_CONNECT_REQUEST
    · rw [run_step_connect sip port s data c fr hp h1]
      by_cases hr : s.next_channel < 256
      · have hresp := handle_connect_request_resp s c hr
        obtain ⟨w, hw⟩ : ∃ w, buildFrame SERVICE_CONNECT_RESPONSE
            ([s.next_channel] ++ [STATUS_OK]
              ++ [0x08, 0x01, 0x00, 0x00, 0x00, 0x00, 0x00, 0x00]
              ++ [0x04, 0x04, 0x02, 0x00]) = some w := by
          rw [buildFrame_eq _ _ (by norm_num [SERVICE_CONNECT_RESPONSE])
                (by norm_num)]
          exact ⟨_, rfl⟩
        rw [hresp, hw, respSends_some _ _ (buildFrame_some_pos hw),
            connectIdsOf_single _ _ _ _ hw, handle_connect_request_state]
        simp
      · rw [handle_connect_request_resp_none s c hr]
        simp [respSends, connectIdsOf]
    · by_cases h2 : fr.service_type = SERVICE_DISCONNECT_REQUEST
      · rw [run_step_disconnect sip port s data c fr hp h2]
        rw [connectIdsOf_respSends_of_ne _ c SERVICE_DISCONNECT_RESPONSE
              (by norm_num [SERVICE_DISCONNECT_RESPONSE, SERVICE_CONNECT_RESPONSE])
              (handle_disconnect_request_shape s fr.body)]
        simp
      · by_cases h3 : fr.service_type = SERVICE_TUNNELING_REQUEST
        · rw [run_step_tunneling sip port s data c fr hp h3]
          rw [connectIdsOf_append]
          intro x hx
          rcases List.mem_append.mp hx with hx | hx
          · rcases handle_tunneling_request_sends_shape s fr.body with h | ⟨body, w, peer, hbf, h⟩
            · rw [h] at hx; cases hx
            · rw [h, connectIdsOf_single _ _ _ _ hbf] at hx
              norm_num [SERVICE_TUNNELING_INDICATION, SERVICE_CONNECT_RESPONSE] at hx
          · rw [connectIdsOf_respSends_of_ne _ c SERVICE_TUNNELING_ACK
                  (by norm_num [SERVICE_TUNNELING_ACK, SERVICE_CONNECT_RESPONSE])
                  (handle_tunneling_request_shape s fr.body)] at hx
            cases hx
        · by_cases h4 : fr.service_type = SERVICE_CONNECTIONSTATE_REQUEST
          · rw [run_step_connectionstate sip port s data c fr hp h4]
            rw [connectIdsOf_respSends_of_ne _ c SERVICE_CONNECTIONSTATE_RESPONSE
                  (by norm_num [SERVICE_CONNECTIONSTATE_RESPONSE,
                        SERVICE_CONNECT_RESPONSE])
                  (handle_connectionstate_request_shape fr.body)]
            simp
          · by_cases h5 : fr.service_type = SERVICE_SEARCH_REQUEST
            · rw [run_step_search sip port s data c fr hp h5]
              rcases handle_search_request_shape sip port fr.body c with h | ⟨body, w, t, hbf, h⟩
              · rw [h]; simp [connectIdsOf]
              · rw [h, connectIdsOf_single _ _ _ _ hbf]
                norm_num [SERVICE_SEARCH_RESPONSE, SERVICE_CONNECT_RESPONSE]
            · rw [run_step_other sip port s data c fr hp h1 h2 h3 h4 h5]
              simp [connectIdsOf]

theorem issuedIds_lt (sip : Bytes) (port : Nat) (s : KNXState)
    (t : List Event) :
    ∀ x ∈ issuedIds sip port s t, x < (processTrace sip port s t).next_channel := by
  induction t generalizing s with
  | nil => simp [issuedIds]
  | cons e rest ih =>
      intro x hx
      simp only [issuedIds, processTrace] at hx ⊢
      rcases List.mem_append.mp hx with hx | hx
      · calc x < (run_step sip port s e.data e.client).1.next_channel :=
            connectIdsOf_run_step sip port s e.data e.client x hx
          _ ≤ _ := processTrace_next_mono sip port _ rest
      · exact ih _ x hx

/-- C2 counterexample: the 6-byte datagram 06 11 02 05 00 06 has version
byte 0x11, yet parse_header accepts it and the receive loop runs the
CONNECT handler, producing a reply; the claimed UnsupportedVersion
rejection does not exist in the code. -/
theorem c2_version_not_checked_counterexample :
    parse_header [0x06, 0x11, 0x02, 0x05, 0x00, 0x06] =
      some ⟨0x06, 0x11, 0x0205, 6, []⟩ ∧
    (run_step [0, 0, 0, 0] 3671 initState
        [0x06, 0x11, 0x02, 0x05, 0x00, 0x06] ⟨[127, 0, 0, 1], 3671⟩).2 =
      [([0x06, 0x10, 0x02, 0x06, 0x00, 0x14, 1, 0, 8, 1, 0, 0, 0, 0, 0, 0,
         4, 4, 2, 0], ⟨[127, 0, 0, 1], 3671⟩)] := by
  constructor
  · decide
  · rfl

/-- C2 amended: frame decoding rejects a datagram if and only if it is
shorter than 6 bytes; the header_len and version bytes are read but
never validated, so a wrong version or header length is still parsed
and handled. -/
theorem c2_decode_rejects_only_short (data : Bytes) :
    parse_header data = none ↔ data.length < 6 := by
  by_cases h : data.length < 6 <;> simp [parse_header, h]

/-- C9 counterexample: a 65530-byte body makes total_length overflow the
16-bit header field, so encoding raises struct.error (modelled none)
and the round trip fails; the claim quantified over every body. -/
theorem c9_roundtrip_counterexample :
    buildFrame SERVICE_CONNECT_REQUEST (List.replicate 65530 0) = none := by
  have h1 : pack_u16 SERVICE_CONNECT_REQUEST = some [2, 5] := by
    norm_num [pack_u16, SERVICE_CONNECT_REQUEST]
  suffices h : ∀ b : Bytes, pack_u16 (6 + b.length) = none →
      buildFrame SERVICE_CONNECT_REQUEST b = none by
    apply h
    rw [List.length_replicate]
    norm_num [pack_u16]
  intro b hb
  simp [buildFrame, build_header, h1, hb]

/-- C9 amended: for every service type below 2^16 and every body of at
most 65529 bytes (so that total_length fits the 16-bit field), decoding
the encoding succeeds and returns the same body and service type. -/
theorem c9_frame_roundtrip (st : Nat) (b : Bytes) (hst : st < 65536)
    (hb : b.length ≤ 65529) :
    ∃ w, buildFrame st b = some w ∧
      parse_header w = some ⟨0x06, 0x10, st, 6 + b.length, b⟩ := by
  have hb' : 6 + b.length < 65536 := by omega
  exact ⟨_, buildFrame_eq st b hst hb', parse_header_of_built st b⟩

/-- C9 witness: the round trip at service type 0x0420 and body 1 2 3. -/
theorem c9_frame_roundtrip_witness :
    0x0420 < 65536 ∧ ([1, 2, 3] : Bytes).length ≤ 65529 ∧
    ∃ w, buildFrame 0x0420 [1, 2, 3] = some w ∧
      parse_header w = some ⟨0x06, 0x10, 0x0420, 6 + ([1, 2, 3] : Bytes).length, [1, 2, 3]⟩ :=
  ⟨by decide, by decide, c9_frame_roundtrip 0x0420 [1, 2, 3] (by decide) (by decide)⟩

/-- C7: cEMI classification returns InsufficientData exactly when the
payload has fewer than 10 bytes or does not extend at least one byte
past the TPCI/APCI offset 2 + additional_info_len + 7; the total Lean
function never fails, and an InsufficientData outcome makes
is_group_write false, so the caller proceeds without an echo. -/
theorem c7_classify_insufficient (cemi : Bytes) :
    (classify cemi = CemiClass.insufficientData ↔
      cemi.length < 10 ∨ cemi.length < 2 + cemi.getD 1 0 + 7 + 2) ∧
    (classify cemi = CemiClass.insufficientData → is_group_write cemi = false) := by
  constructor
  · by_cases h1 : cemi.length < 10
    · simp [classify, h1]
    · by_cases h2 : cemi.length ≤ 2 + cemi.getD 1 0 + 1 + 1 + 2 + 2 + 1
      · simp only [List.getD_eq_getElem?_getD] at h2 ⊢
        simp [classify, h1, h2]
        omega
      · by_cases h3 : cemi.length ≤ 2 + cemi.getD 1 0 + 1 + 1 + 2 + 2 + 1 + 1
        · simp only [List.getD_eq_getElem?_getD] at h2 h3 ⊢
          simp [classify, h1, h2, h3]
          omega
        · simp only [List.getD_eq_getElem?_getD] at h2 h3 ⊢
          simp [classify, h1, h2, h3]
          omega
  · intro h
    simp [is_group_write, h]

/-- C7 witness: the classification facts at the single-byte payload 29. -/
theorem c7_classify_insufficient_witness :
    (classify [0x29] = CemiClass.insufficientData ↔
      ([0x29] : Bytes).length < 10 ∨
      ([0x29] : Bytes).length < 2 + ([0x29] : Bytes).getD 1 0 + 7 + 2) ∧
    (classify [0x29] = CemiClass.insufficientData →
      is_group_write [0x29] = false) :=
  c7_classify_insufficient [0x29]

/-- C5: every TUNNELING_REQUEST with at least 4 body bytes is answered
with a TUNNELING_ACK whose body is the unchanged 4-byte connection
header followed by status 0, whatever the incoming sequence byte; and
when the cEMI payload classifies as GroupValue_Read (APCI 0x00) the ACK
is the only output: no indication is sent and the state is unchanged. -/
theorem c5_tunneling_ack_unconditional (s : KNXState) (data : Bytes)
    (h4 : 4 ≤ data.length) :
    (handle_tunneling_request s data).2.1 =
      some ([0x06, 0x10, 0x04, 0x21, 0x00, 0x0B]
        ++ (data.take 4 ++ [STATUS_OK])) ∧
    (classify (data.drop 4) = CemiClass.apci 0x00 →
      handle_tunneling_request s data =
        (s, some ([0x06, 0x10, 0x04, 0x21, 0x00, 0x0B]
          ++ (data.take 4 ++ [STATUS_OK])), [])) := by
  rw [handle_tunneling_request_eq s data h4]
  constructor
  · split <;> rfl
  · intro hr
    have hng : is_group_write (data.drop 4) = false := by
      simp [is_group_write, hr]
    rw [if_neg (by simp [hng])]

/-- C5 witness: a GroupValue_Read tunneling body with connection header
04 01 00 00 gets the ACK echoing that header, and only the ACK. -/
theorem c5_tunneling_ack_unconditional_witness :
    (handle_tunneling_request initState
        [4, 1, 0, 0, 0x29, 0x00, 0xBC, 0xE0, 0x11, 0xFA, 0x12, 0x04,
         0x01, 0x00, 0x00]).2.1 =
      some ([0x06, 0x10, 0x04, 0x21, 0x00, 0x0B]
        ++ (([4, 1, 0, 0, 0x29, 0x00, 0xBC, 0xE0, 0x11, 0xFA, 0x12, 0x04,
              0x01, 0x00, 0x00] : Bytes).take 4 ++ [STATUS_OK])) ∧
    (classify (([4, 1, 0, 0, 0x29, 0x00, 0xBC, 0xE0, 0x11, 0xFA, 0x12, 0x04,
              0x01, 0x00, 0x00] : Bytes).drop 4) = CemiClass.apci 0x00 →
      handle_tunneling_request initState
        [4, 1, 0, 0, 0x29, 0x00, 0xBC, 0xE0, 0x11, 0xFA, 0x12, 0x04,
         0x01, 0x00, 0x00] =
        (initState, some ([0x06, 0x10, 0x04, 0x21, 0x00, 0x0B]
          ++ (([4, 1, 0, 0, 0x29, 0x00, 0xBC, 0xE0, 0x11, 0xFA, 0x12, 0x04,
                0x01, 0x00, 0x00] : Bytes).take 4 ++ [STATUS_OK])), [])) :=
  c5_tunneling_ack_unconditional initState _ (by decide)

/-- C10: a GroupValue_Write tunneling request whose channel id is not in
the session table still gets the ACK, but the indication path is a
silent no-op: nothing else is sent and the state, session table and
allocator included, is returned unchanged. -/
theorem c10_unknown_channel_noop (s : KNXState) (data : Bytes)
    (h4 : 4 ≤ data.length) (hw : is_group_write (data.drop 4) = true)
    (hnone : dictLookup s.channels (data.getD 1 0) = none) :
    handle_tunneling_request s data =
      (s, some ([0x06, 0x10, 0x04, 0x21, 0x00, 0x0B]
        ++ (data.take 4 ++ [STATUS_OK])), []) := by
  rw [handle_tunneling_request_eq s data h4]
  have h10 := length_of_is_group_write hw
  rw [if_pos ⟨by omega, hw⟩]
  rw [send_tunneling_indication_absent s _ _ hnone]

/-- C10 witness: a GroupValue_Write body on channel 1 against the empty
session table. -/
theorem c10_unknown_channel_noop_witness :
    handle_tunneling_request initState
        [4, 1, 0, 0, 0x29, 0x00, 0xBC, 0xE0, 0x11, 0xFA, 0x12, 0x04,
         0x01, 0x00, 0x81] =
      (initState, some ([0x06, 0x10, 0x04, 0x21, 0x00, 0x0B]
        ++ (([4, 1, 0, 0, 0x29, 0x00, 0xBC, 0xE0, 0x11, 0xFA, 0x12, 0x04,
              0x01, 0x00, 0x81] : Bytes).take 4 ++ [STATUS_OK])), []) :=
  c10_unknown_channel_noop initState _ (by decide) (by decide) (by decide)

/-- C6: the SEARCH_RESPONSE is always a single unicast whose destination
is the search_target of the body; that target is the embedded HPAI
address and port whenever the first 8 body bytes form a valid HPAI
(length byte 8, protocol byte 1) independently of the UDP source, and
is the UDP source address otherwise. -/
theorem c6_search_reply_target (sip : Bytes) (port : Nat) (data : Bytes)
    (c : Addr) (hport : port < 65536) :
    handle_search_request sip port data c =
      [([0x06, 0x10, 0x02, 0x02, 0x00, 0x0E, 0x08, 0x01]
          ++ (sip.take 4 ++ List.replicate (4 - sip.length) 0)
          ++ [port / 256, port % 256], search_target data c)] ∧
    ((8 ≤ data.length ∧ data.getD 0 0 = 8 ∧ data.getD 1 0 = 1) →
       search_target data c =
         ⟨(data.drop 2).take 4, read_u16 (data.getD 6 0) (data.getD 7 0)⟩) ∧
    (¬ (8 ≤ data.length ∧ data.getD 0 0 = 8 ∧ data.getD 1 0 = 1) →
       search_target data c = c) := by
  refine ⟨handle_search_request_eq sip port data c hport, ?_, ?_⟩
  · intro h
    simp only [search_target, if_pos h]
  · intro h
    simp only [search_target, if_neg h]

/-- C6 witness: a body embedding the HPAI 192.0.2.5:40000 directs the
response there, whatever the source; port 3671 advertised. -/
theorem c6_search_reply_target_witness :
    handle_search_request [192, 0, 2, 1] 3671
        [8, 1, 192, 0, 2, 5, 156, 64] ⟨[127, 0, 0, 1], 55⟩ =
      [([0x06, 0x10, 0x02, 0x02, 0x00, 0x0E, 0x08, 0x01]
          ++ (([192, 0, 2, 1] : Bytes).take 4
              ++ List.replicate (4 - ([192, 0, 2, 1] : Bytes).length) 0)
          ++ [3671 / 256, 3671 % 256],
        search_target [8, 1, 192, 0, 2, 5, 156, 64] ⟨[127, 0, 0, 1], 55⟩)] ∧
    ((8 ≤ ([8, 1, 192, 0, 2, 5, 156, 64] : Bytes).length ∧
        ([8, 1, 192, 0, 2, 5, 156, 64] : Bytes).getD 0 0 = 8 ∧
        ([8, 1, 192, 0, 2, 5, 156, 64] : Bytes).getD 1 0 = 1) →
       search_target [8, 1, 192, 0, 2, 5, 156, 64] ⟨[127, 0, 0, 1], 55⟩ =
         ⟨(([8, 1, 192, 0, 2, 5, 156, 64] : Bytes).drop 2).take 4,
          read_u16 (([8, 1, 192, 0, 2, 5, 156, 64] : Bytes).getD 6 0)
            (([8, 1, 192, 0, 2, 5, 156, 64] : Bytes).getD 7 0)⟩) ∧
    (¬ (8 ≤ ([8, 1, 192, 0, 2, 5, 156, 64] : Bytes).length ∧
        ([8, 1, 192, 0, 2, 5, 156, 64] : Bytes).getD 0 0 = 8 ∧
        ([8, 1, 192, 0, 2, 5, 156, 64] : Bytes).getD 1 0 = 1) →
       search_target [8, 1, 192, 0, 2, 5, 156, 64] ⟨[127, 0, 0, 1], 55⟩ =
         ⟨[127, 0, 0, 1], 55⟩) :=
  c6_search_reply_target [192, 0, 2, 1] 3671 [8, 1, 192, 0, 2, 5, 156, 64]
    ⟨[127, 0, 0, 1], 55⟩ (by decide)

/-- C8: after a CONNECT that issued the id and a DISCONNECT that closed
it (the session table is back to not containing the id), a
CONNECTIONSTATE_REQUEST for that id still returns status 0: the handler
reads only the request bytes and never consults the session table. -/
theorem c8_connectionstate_ignores_liveness (s : KNXState) (c : Addr)
    (hch : s.next_channel < 256)
    (hfresh : dictLookup s.channels s.next_channel = none) :
    dictLookup ((handle_disconnect_request (handle_connect_request s c).1
        [s.next_channel, 0]).1).channels s.next_channel = none ∧
    handle_connectionstate_request [s.next_channel, 0] =
      some [0x06, 0x10, 0x02, 0x08, 0x00, 0x08, s.next_channel, STATUS_OK] := by
  have hg : ([s.next_channel, 0] : Bytes).getD 0 0 = s.next_channel := rfl
  constructor
  · rw [handle_connect_request_state,
        handle_disconnect_request_eq _ _ (by simp) (by rw [hg]; exact hch)]
    simp only [hg]
    rw [dictErase_dictInsert _ _ _ hfresh]
    exact hfresh
  · rw [handle_connectionstate_request_eq _ (by simp) (by rw [hg]; exact hch)]
    rw [hg]

/-- C8 witness: channel 1 opened then closed; the heartbeat for id 1
still answers status 0. -/
theorem c8_connectionstate_ignores_liveness_witness :
    dictLookup ((handle_disconnect_request
        (handle_connect_request initState ⟨[10, 0, 0, 1], 1234⟩).1
        [initState.next_channel, 0]).1).channels initState.next_channel = none ∧
    handle_connectionstate_request [initState.next_channel, 0] =
      some [0x06, 0x10, 0x02, 0x08, 0x00, 0x08, initState.next_channel,
            STATUS_OK] :=
  c8_connectionstate_ignores_liveness initState ⟨[10, 0, 0, 1], 1234⟩
    (by decide) (by decide)

/-- C3 counterexample: a CONNECT_REQUEST header declaring total_length
100 with only 6 bytes on the wire is not dropped: the body is silently
truncated to empty and the CONNECT handler still replies, so a reply is
produced for a datagram whose declared length exceeds the available
bytes. -/
theorem c3_truncated_reply_counterexample :
    (parse_header [0x06, 0x10, 0x02, 0x05, 0x00, 100]).map Frame.total_len =
      some 100 ∧
    ([0x06, 0x10, 0x02, 0x05, 0x00, 100] : Bytes).length = 6 ∧
    (run_step [0, 0, 0, 0] 3671 initState [0x06, 0x10, 0x02, 0x05, 0x00, 100]
        ⟨[127, 0, 0, 1], 3671⟩).2 =
      [([0x06, 0x10, 0x02, 0x06, 0x00, 0x14, 1, 0, 8, 1, 0, 0, 0, 0, 0, 0,
         4, 4, 2, 0], ⟨[127, 0, 0, 1], 3671⟩)] :=
  ⟨by decide, by decide, rfl⟩

/-- C3 amended: an over-declared total_length only truncates the body to
the bytes actually available; no reply is produced exactly when the
truncated body then fails the minimum-length
precondition (2 bytes for DISCONNECT and CONNECTIONSTATE, 4 bytes for
TUNNELING), while handlers without a precondition, such as CONNECT,
still reply. -/
theorem c3_truncation_and_min_length (sip : Bytes) (port : Nat)
    (s : KNXState) (data : Bytes) (c : Addr) (fr : Frame)
    (hp : parse_header data = some fr) (hover : data.length < fr.total_len) :
    fr.body.length = data.length - 6 ∧
    (fr.service_type = SERVICE_DISCONNECT_REQUEST → fr.body.length < 2 →
      run_step sip port s data c = (s, [])) ∧
    (fr.service_type = SERVICE_CONNECTIONSTATE_REQUEST → fr.body.length < 2 →
      run_step sip port s data c = (s, [])) ∧
    (fr.service_type = SERVICE_TUNNELING_REQUEST → fr.body.length < 4 →
      run_step sip port s data c = (s, [])) := by
  have h6 : ¬ data.length < 6 := by
    intro h
    rw [(parse_header_none_iff data).mpr h] at hp
    cases hp
  refine ⟨?_, ?_, ?_, ?_⟩
  · have hfr := hp
    simp only [parse_header, if_neg h6, Option.some.injEq] at hfr
    have htl : fr.total_len =
        read_u16 (data.getD 4 0) (data.getD 5 0) := by
      rw [← hfr]
    have hbody : fr.body =
        (data.drop 6).take (read_u16 (data.getD 4 0) (data.getD 5 0) - 6) := by
      rw [← hfr]
      dsimp only
      rw [if_pos (show (6 : Nat) ≤
            read_u16 (List.getD data 4 0) (List.getD data 5 0) by
          rw [← htl]; omega)]
    rw [hbody]
    simp only [List.length_take, List.length_drop]
    rw [htl] at hover
    omega
  · intro hsvc hblen
    rw [run_step_disconnect sip port s data c fr hp hsvc]
    have hh : handle_disconnect_request s fr.body = (s, none) := by
      simp [handle_disconnect_request, hblen]
    rw [hh]
    rfl
  · intro hsvc hblen
    rw [run_step_connectionstate sip port s data c fr hp hsvc]
    have hh : handle_connectionstate_request fr.body = none := by
      simp [handle_connectionstate_request, hblen]
    rw [hh]
    rfl
  · intro hsvc hblen
    rw [run_step_tunneling sip port s data c fr hp hsvc]
    have hh : handle_tunneling_request s fr.body = (s, none, []) := by
      simp [handle_tunneling_request, hblen]
    rw [hh]
    rfl

/-- C3 amended witness: a DISCONNECT header declaring total_length 100
with nothing after the header is truncated to an empty body, fails the
2-byte precondition and gets no reply. -/
theorem c3_truncation_and_min_length_witness :
    (⟨0x06, 0x10, 0x0209, 100, []⟩ : Frame).body.length =
      ([0x06, 0x10, 0x02, 0x09, 0x00, 100] : Bytes).length - 6 ∧
    ((⟨0x06, 0x10, 0x0209, 100, []⟩ : Frame).service_type =
        SERVICE_DISCONNECT_REQUEST →
      (⟨0x06, 0x10, 0x0209, 100, []⟩ : Frame).body.length < 2 →
      run_step [0, 0, 0, 0] 3671 initState
        [0x06, 0x10, 0x02, 0x09, 0x00, 100] ⟨[127, 0, 0, 1], 55⟩ =
        (initState, [])) ∧
    ((⟨0x06, 0x10, 0x0209, 100, []⟩ : Frame).service_type =
        SERVICE_CONNECTIONSTATE_REQUEST →
      (⟨0x06, 0x10, 0x0209, 100, []⟩ : Frame).body.length < 2 →
      run_step [0, 0, 0, 0] 3671 initState
        [0x06, 0x10, 0x02, 0x09, 0x00, 100] ⟨[127, 0, 0, 1], 55⟩ =
        (initState, [])) ∧
    ((⟨0x06, 0x10, 0x0209, 100, []⟩ : Frame).service_type =
        SERVICE_TUNNELING_REQUEST →
      (⟨0x06, 0x10, 0x0209, 100, []⟩ : Frame).body.length < 4 →
      run_step [0, 0, 0, 0] 3671 initState
        [0x06, 0x10, 0x02, 0x09, 0x00, 100] ⟨[127, 0, 0, 1], 55⟩ =
        (initState, [])) :=
  c3_truncation_and_min_length [0, 0, 0, 0] 3671 initState
    [0x06, 0x10, 0x02, 0x09, 0x00, 100] ⟨[127, 0, 0, 1], 55⟩
    ⟨0x06, 0x10, 0x0209, 100, []⟩ (by decide) (by decide)

/-- C1 counterexample: for a GroupValue_Write tunneling request on the
live channel 1, the handler sends the TUNNELING_INDICATION from inside
the handler and the receive loop sends the TUNNELING_ACK only after the
handler returns, so on the wire the indication (service 0x0420) comes
first and the ACK (service 0x0421) second — not after the ACK as the
claim states. -/
theorem c1_indication_before_ack_counterexample :
    (run_step [0, 0, 0, 0] 3671 ⟨[(1, (⟨[10, 0, 0, 1], 1234⟩, 0))], 2⟩
        [0x06, 0x10, 0x04, 0x20, 0x00, 21, 4, 1, 0, 0,
         0x29, 0x00, 0xBC, 0xE0, 0x11, 0xFA, 0x12, 0x04, 0x01, 0x00, 0x81]
        ⟨[127, 0, 0, 1], 55⟩).2 =
      [([0x06, 0x10, 0x04, 0x20, 0x00, 21, 4, 1, 0, 0,
         0x29, 0x00, 0xBC, 0xE0, 0x11, 0xFA, 0x12, 0x04, 0x01, 0x00, 0x81],
        ⟨[10, 0, 0, 1], 1234⟩),
       ([0x06, 0x10, 0x04, 0x21, 0x00, 0x0B, 4, 1, 0, 0, 0],
        ⟨[127, 0, 0, 1], 55⟩)] ∧
    (parse_header [0x06, 0x10, 0x04, 0x20, 0x00, 21, 4, 1, 0, 0,
         0x29, 0x00, 0xBC, 0xE0, 0x11, 0xFA, 0x12, 0x04, 0x01, 0x00,
         0x81]).map Frame.service_type = some SERVICE_TUNNELING_INDICATION ∧
    (parse_header [0x06, 0x10, 0x04, 0x21, 0x00, 0x0B, 4, 1, 0, 0,
         0]).map Frame.service_type = some SERVICE_TUNNELING_ACK :=
  ⟨rfl, by decide, by decide⟩

/-- C1 amended: a TUNNELING_REQUEST datagram whose body has at least 4
bytes and whose cEMI payload classifies as GroupValue_Write, on a
channel present in the session table, produces exactly one
TUNNELING_INDICATION to the stored peer carrying byte-for-byte the same
cEMI payload with connection-header sequence equal to the stored
next-send sequence, emitted before (not after) the TUNNELING_ACK; the
stored sequence afterwards is (old + 1) mod 256. The length bound is
the recvfrom buffer of 2048 bytes. -/
theorem c1_group_write_indication (sip : Bytes) (port : Nat) (s : KNXState)
    (body : Bytes) (c : Addr) (tlh tll : Nat) (peer : Addr) (seq : Nat)
    (htl : read_u16 tlh tll = 6 + body.length)
    (h4 : 4 ≤ body.length) (hbound : body.length ≤ 2042)
    (hch : body.getD 1 0 < 256)
    (hw : is_group_write (body.drop 4) = true)
    (hlk : dictLookup s.channels (body.getD 1 0) = some (peer, seq))
    (hseq : seq < 256) :
    run_step sip port s ([0x06, 0x10, 0x04, 0x20, tlh, tll] ++ body) c =
      (⟨dictInsert s.channels (body.getD 1 0) (peer, (seq + 1) % 256),
        s.next_channel⟩,
       [([0x06, 0x10, 0x04, 0x20, (6 + body.length) / 256,
          (6 + body.length) % 256]
           ++ ([0x04, body.getD 1 0, seq, 0x00] ++ body.drop 4), peer),
        ([0x06, 0x10, 0x04, 0x21, 0x00, 0x0B]
           ++ (body.take 4 ++ [STATUS_OK]), c)]) ∧
    dictLookup (dictInsert s.channels (body.getD 1 0)
        (peer, (seq + 1) % 256)) (body.getD 1 0) =
      some (peer, (seq + 1) % 256) := by
  have hp : parse_header ([0x06, 0x10, 0x04, 0x20, tlh, tll] ++ body) =
      some ⟨0x06, 0x10, 0x0420, read_u16 tlh tll, body⟩ := by
    have htl' : tlh * 256 + tll = 6 + body.length := by
      simpa [read_u16] using htl
    have hlen : ([0x06, 0x10, 0x04, 0x20, tlh, tll] ++ body).length =
        6 + body.length := by
      simp only [List.length_append, List.length_cons, List.length_nil]
    have h6 : ¬ ([0x06, 0x10, 0x04, 0x20, tlh, tll] ++ body).length < 6 := by
      rw [hlen]; omega
    simp only [parse_header, if_neg h6]
    norm_num [read_u16, List.getD]
    intro h
    omega
  rw [run_step_tunneling sip port s _ c _ hp rfl]
  dsimp only
  rw [handle_tunneling_request_eq s body h4]
  have h10 := length_of_is_group_write hw
  rw [if_pos ⟨by omega, hw⟩]
  have hdl : (body.drop 4).length = body.length - 4 := by
    simp [List.length_drop]
  rw [send_tunneling_indication_eq s (body.getD 1 0) (body.drop 4) peer seq
        hlk hch hseq (by omega)]
  rw [show (10 : Nat) + (body.drop 4).length = 6 + body.length by omega]
  rw [respSends_some _ _ (by simp)]
  exact ⟨rfl, dictLookup_dictInsert s.channels _ _⟩

/-- C1 amended witness: a concrete GroupValue_Write on live channel 1
with stored sequence 0: the indication goes to the peer with sequence 0
and the stored counter becomes 1. -/
theorem c1_group_write_indication_witness :
    run_step [0, 0, 0, 0] 3671 ⟨[(1, (⟨[10, 0, 0, 1], 1234⟩, 0))], 2⟩
        ([0x06, 0x10, 0x04, 0x20, 0, 21] ++
          [4, 1, 0, 0, 0x29, 0x00, 0xBC, 0xE0, 0x11, 0xFA, 0x12, 0x04,
           0x01, 0x00, 0x81]) ⟨[127, 0, 0, 1], 55⟩ =
      (⟨[(1, (⟨[10, 0, 0, 1], 1234⟩, 1))], 2⟩,
       [([0x06, 0x10, 0x04, 0x20, 0, 21, 4, 1, 0, 0,
          0x29, 0x00, 0xBC, 0xE0, 0x11, 0xFA, 0x12, 0x04, 0x01, 0x00, 0x81],
         ⟨[10, 0, 0, 1], 1234⟩),
        ([0x06, 0x10, 0x04, 0x21, 0x00, 0x0B, 4, 1, 0, 0, 0],
         ⟨[127, 0, 0, 1], 55⟩)]) ∧
    dictLookup [(1, (⟨[10, 0, 0, 1], 1234⟩, 1))] 1 =
      some (⟨[10, 0, 0, 1], 1234⟩, 1) :=
  c1_group_write_indication [0, 0, 0, 0] 3671
    ⟨[(1, (⟨[10, 0, 0, 1], 1234⟩, 0))], 2⟩
    [4, 1, 0, 0, 0x29, 0x00, 0xBC, 0xE0, 0x11, 0xFA, 0x12, 0x04,
     0x01, 0x00, 0x81] ⟨[127, 0, 0, 1], 55⟩ 0 21 ⟨[10, 0, 0, 1], 1234⟩ 0
    (by decide) (by decide) (by decide) (by decide) (by decide) (by decide)
    (by decide)

/-- C4: after any trace of datagrams processed from the initial state,
a CONNECT_REQUEST is answered with a CONNECT_RESPONSE carrying status 0
and the current allocator value as channel id; that id is strictly
greater than every channel id issued in any earlier CONNECT_RESPONSE of
the trace (the trace may contain DISCONNECTs, so ids are never reused
after a close). The allocator bound below 256 reflects the one-byte
packing of the id; the spec scopes allocator wraps out of range. -/
theorem c4_connect_fresh_channel (sip : Bytes) (port : Nat) (t : List Event)
    (d : Bytes) (c : Addr) (fr : Frame)
    (hp : parse_header d = some fr)
    (hsvc : fr.service_type = SERVICE_CONNECT_REQUEST)
    (hrange : (processTrace sip port initState t).next_channel < 256) :
    run_step sip port (processTrace sip port initState t) d c =
      (⟨dictInsert (processTrace sip port initState t).channels
          (processTrace sip port initState t).next_channel (c, 0),
        (processTrace sip port initState t).next_channel + 1⟩,
       [([0x06, 0x10, 0x02, 0x06, 0x00, 0x14]
           ++ [(processTrace sip port initState t).next_channel, STATUS_OK,
               0x08, 0x01, 0, 0, 0, 0, 0, 0, 0x04, 0x04, 0x02, 0x00], c)]) ∧
    ∀ x ∈ issuedIds sip port initState t,
      x < (processTrace sip port initState t).next_channel := by
  constructor
  · rw [run_step_connect sip port _ d c fr hp hsvc,
        handle_connect_request_eq _ c hrange]
    rw [respSends_some _ _ (by simp)]
  · exact issuedIds_lt sip port initState t

/-- C4 witness: after one prior CONNECT (which issued id 1), a second
CONNECT gets id 2, strictly above every previously issued id. -/
theorem c4_connect_fresh_channel_witness :
    run_step [0, 0, 0, 0] 3671
      (processTrace [0, 0, 0, 0] 3671 initState
        [⟨[0x06, 0x10, 0x02, 0x05, 0x00, 0x06], ⟨[10, 0, 0, 1], 1234⟩⟩])
      [0x06, 0x10, 0x02, 0x05, 0x00, 0x06] ⟨[10, 0, 0, 2], 77⟩ =
      (⟨dictInsert (processTrace [0, 0, 0, 0] 3671 initState
            [⟨[0x06, 0x10, 0x02, 0x05, 0x00, 0x06], ⟨[10, 0, 0, 1], 1234⟩⟩]).channels
          (processTrace [0, 0, 0, 0] 3671 initState
            [⟨[0x06, 0x10, 0x02, 0x05, 0x00, 0x06], ⟨[10, 0, 0, 1], 1234⟩⟩]).next_channel
          (⟨[10, 0, 0, 2], 77⟩, 0),
        (processTrace [0, 0, 0, 0] 3671 initState
            [⟨[0x06, 0x10, 0x02, 0x05, 0x00, 0x06], ⟨[10, 0, 0, 1], 1234⟩⟩]).next_channel + 1⟩,
       [([0x06, 0x10, 0x02, 0x06, 0x00, 0x14]
           ++ [(processTrace [0, 0, 0, 0] 3671 initState
                  [⟨[0x06, 0x10, 0x02, 0x05, 0x00, 0x06], ⟨[10, 0, 0, 1], 1234⟩⟩]).next_channel,
               STATUS_OK, 0x08, 0x01, 0, 0, 0, 0, 0, 0, 0x04, 0x04, 0x02, 0x00],
         ⟨[10, 0, 0, 2], 77⟩)]) ∧
    ∀ x ∈ issuedIds [0, 0, 0, 0] 3671 initState
        [⟨[0x06, 0x10, 0x02, 0x05, 0x00, 0x06], ⟨[10, 0, 0, 1], 1234⟩⟩],
      x < (processTrace [0, 0, 0, 0] 3671 initState
            [⟨[0x06, 0x10, 0x02, 0x05, 0x00, 0x06], ⟨[10, 0, 0, 1], 1234⟩⟩]).next_channel :=
  c4_connect_fresh_channel [0, 0, 0, 0] 3671
    [⟨[0x06, 0x10, 0x02, 0x05, 0x00, 0x06], ⟨[10, 0, 0, 1], 1234⟩⟩]
    [0x06, 0x10, 0x02, 0x05, 0x00, 0x06] ⟨[10, 0, 0, 2], 77⟩
    ⟨0x06, 0x10, 0x0205, 6, []⟩ (by decide) (by decide) (by decide)
